import Mathlib

/-
Formal model of the Order & Payment Orchestrator core of main.py
(FastAPI e-commerce backend): create_payment_order, verify_payment and
payment_webhook, together with the HMAC-SHA256 signature computation that
verify_payment performs via hmac.new(key, msg, hashlib.sha256).hexdigest().

Machine integers are modelled as Nat with explicit reduction modulo 2^32
where the SHA-256 compression function wraps. Byte strings are List Nat
(each element < 256). The MongoDB orders collection is modelled as a
List Order; update_one with a filter updates the first matching document,
and create_document (defined in database.py, which is not part of src/)
is modelled from the spec as appending exactly one document.
-/

/-- Reduce a Nat to a 32-bit word, as the SHA-256 arithmetic does. -/
def w32 (x : Nat) : Nat := x % 4294967296

/-- Right rotation of a 32-bit word by n bits. -/
def rotr32 (n x : Nat) : Nat := w32 ((x >>> n) ||| (x <<< (32 - n)))

/-- SHA-256 big Sigma0 function. -/
def bSig0 (x : Nat) : Nat := (rotr32 2 x) ^^^ (rotr32 13 x) ^^^ (rotr32 22 x)

/-- SHA-256 big Sigma1 function. -/
def bSig1 (x : Nat) : Nat := (rotr32 6 x) ^^^ (rotr32 11 x) ^^^ (rotr32 25 x)

/-- SHA-256 small sigma0 function. -/
def sSig0 (x : Nat) : Nat := (rotr32 7 x) ^^^ (rotr32 18 x) ^^^ (x >>> 3)

/-- SHA-256 small sigma1 function. -/
def sSig1 (x : Nat) : Nat := (rotr32 17 x) ^^^ (rotr32 19 x) ^^^ (x >>> 10)

/-- SHA-256 choice function: (x AND y) XOR (NOT x AND z), NOT taken on 32 bits. -/
def chFn (x y z : Nat) : Nat := (x &&& y) ^^^ ((x ^^^ 4294967295) &&& z)

/-- SHA-256 majority function. -/
def majFn (x y z : Nat) : Nat := (x &&& y) ^^^ (x &&& z) ^^^ (y &&& z)

/-- The 64 SHA-256 round constants of FIPS 180-4 (the first 32 bits of the
fractional parts of the cube roots of the first 64 primes), written in
decimal: 1116352408 is 428a2f98, 1899447441 is 71374491, and so on through
3329325298, which is c67178f2. -/
def sha256K : List Nat :=
  [1116352408, 1899447441, 3049323471, 3921009573, 961987163, 1508970993,
   2453635748, 2870763221, 3624381080, 310598401, 607225278, 1426881987,
   1925078388, 2162078206, 2614888103, 3248222580, 3835390401, 4022224774,
   264347078, 604807628, 770255983, 1249150122, 1555081692, 1996064986,
   2554220882, 2821834349, 2952996808, 3210313671, 3336571891, 3584528711,
   113926993, 338241895, 666307205, 773529912, 1294757372, 1396182291,
   1695183700, 1986661051, 2177026350, 2456956037, 2730485921, 2820302411,
   3259730800, 3345764771, 3516065817, 3600352804, 4094571909, 275423344,
   430227734, 506948616, 659060556, 883997877, 958139571, 1322822218,
   1537002063, 1747873779, 1955562222, 2024104815, 2227730452, 2361852424,
   2428436474, 2756734187, 3204031479, 3329325298]

/-- State of the SHA-256 compression function: eight 32-bit working words. -/
structure Hash8 where
  a : Nat
  b : Nat
  c : Nat
  d : Nat
  e : Nat
  f : Nat
  g : Nat
  h : Nat
deriving DecidableEq

/-- The SHA-256 initial hash value. -/
def sha256Init : Hash8 :=
  ⟨0x6a09e667, 0xbb67ae85, 0x3c6ef372, 0xa54ff53a, 0x510e527f, 0x9b05688c, 0x1f83d9ab, 0x5be0cd19⟩

/-- One round of the SHA-256 compression function. -/
def sha256Round (st : Hash8) (k w : Nat) : Hash8 :=
  let t1 := w32 (st.h + bSig1 st.e + chFn st.e st.f st.g + k + w)
  let t2 := w32 (bSig0 st.a + majFn st.a st.b st.c)
  ⟨w32 (t1 + t2), st.a, st.b, st.c, w32 (st.d + t1), st.e, st.f, st.g⟩

/-- Run the 64 compression rounds over the zipped constants and schedule. -/
def sha256Rounds (st : Hash8) : List (Nat × Nat) → Hash8
  | [] => st
  | (k, w) :: rest => sha256Rounds (sha256Round st k w) rest

/-- Extend a 16-word message block to the 64-word schedule, appending n words. -/
def extendW (w : List Nat) : Nat → List Nat
  | 0 => w
  | n + 1 =>
    let t := w.length
    let nw := w32 (sSig1 (w.getD (t - 2) 0) + w.getD (t - 7) 0 +
      sSig0 (w.getD (t - 15) 0) + w.getD (t - 16) 0)
    extendW (w ++ [nw]) n

/-- Process one 16-word block, updating the running hash value. -/
def sha256Compress (hv : Hash8) (block : List Nat) : Hash8 :=
  let w := extendW block 48
  let st := sha256Rounds hv (sha256K.zip w)
  ⟨w32 (hv.a + st.a), w32 (hv.b + st.b), w32 (hv.c + st.c), w32 (hv.d + st.d),
   w32 (hv.e + st.e), w32 (hv.f + st.f), w32 (hv.g + st.g), w32 (hv.h + st.h)⟩

/-- Big-endian byte serialization of x on n bytes. -/
def beBytes : Nat → Nat → List Nat
  | 0, _ => []
  | n + 1, x => beBytes n (x >>> 8) ++ [x % 256]

/-- SHA-256 padding: append 0x80, zero bytes to 56 mod 64, and the 64-bit bit length. -/
def sha256Pad (msg : List Nat) : List Nat :=
  let l := msg.length
  let zeros := (55 + 64 - l % 64) % 64
  msg ++ [0x80] ++ List.replicate zeros 0 ++ beBytes 8 (8 * l)

/-- Group a byte list into big-endian 32-bit words (4 bytes each). -/
def bytesToWords : List Nat → List Nat
  | b0 :: b1 :: b2 :: b3 :: rest =>
    ((b0 <<< 24) ||| (b1 <<< 16) ||| (b2 <<< 8) ||| b3) :: bytesToWords rest
  | _ => []

/-- Split a word list into chunks of 16 words; fuel bounds the recursion. -/
def chunks16 : Nat → List Nat → List (List Nat)
  | 0, _ => []
  | _ + 1, [] => []
  | fuel + 1, l => l.take 16 :: chunks16 fuel (l.drop 16)

/-- The eight words of a hash state, in output order. -/
def hashWords (st : Hash8) : List Nat := [st.a, st.b, st.c, st.d, st.e, st.f, st.g, st.h]

/-- SHA-256 of a byte string, as its 32 digest bytes. -/
def sha256 (msg : List Nat) : List Nat :=
  let ws := bytesToWords (sha256Pad msg)
  let blocks := chunks16 ws.length ws
  let hv := blocks.foldl sha256Compress sha256Init
  (hashWords hv).flatMap (beBytes 4)

/-- HMAC-SHA256 per RFC 2104 with the SHA-256 block size of 64 bytes:
hash a too-long key, zero-pad to 64 bytes, and chain the inner and outer hashes. -/
def hmacSha256 (key msg : List Nat) : List Nat :=
  let k0 := if key.length > 64 then sha256 key else key
  let kp := k0 ++ List.replicate (64 - k0.length) 0
  let ipad := kp.map (fun b => b ^^^ 0x36)
  let opad := kp.map (fun b => b ^^^ 0x5C)
  sha256 (opad ++ sha256 (ipad ++ msg))

/-- Lower-case hex digit for a value below 16, as hexdigest emits. -/
def hexDigit (n : Nat) : Char := if n < 10 then Char.ofNat (48 + n) else Char.ofNat (87 + n)

/-- Two lower-case hex characters of one byte. -/
def byteHex (b : Nat) : List Char := [hexDigit ((b >>> 4) % 16), hexDigit (b % 16)]

/-- Lower-case hex string of a byte list, as Python hexdigest produces. -/
def hexStr (bs : List Nat) : String := String.mk (bs.flatMap byteHex)

/-- UTF-8 encoding of one character, as the Python str.encode default. -/
def utf8Bytes (c : Char) : List Nat :=
  let n := c.toNat
  if n < 128 then [n]
  else if n < 2048 then [192 ||| (n >>> 6), 128 ||| (n &&& 63)]
  else if n < 65536 then
    [224 ||| (n >>> 12), 128 ||| ((n >>> 6) &&& 63), 128 ||| (n &&& 63)]
  else
    [240 ||| (n >>> 18), 128 ||| ((n >>> 12) &&& 63), 128 ||| ((n >>> 6) &&& 63), 128 ||| (n &&& 63)]

/-- UTF-8 bytes of a string. -/
def strBytes (s : String) : List Nat := s.data.flatMap utf8Bytes

/-- The signature verify_payment recomputes:
hmac.new(key.encode(), msg.encode(), hashlib.sha256).hexdigest() from main.py. -/
def hmacSha256Hex (key msg : String) : String := hexStr (hmacSha256 (strBytes key) (strBytes msg))

/-
Data model. Mongo documents are dynamically typed, so the JSON values a
webhook can write are modelled by an explicit Json type; the payment_status
and razorpay_order_id fields of a stored order are Json values because the
code writes gateway-supplied values into them without validation.
-/

/-- A JSON value as carried by request payloads and gateway responses.
Numbers are modelled as integers, which covers every value the payment
core inspects (ids and statuses are strings; numbers only matter for
Python truthiness). -/
inductive Json where
  | null : Json
  | bool : Bool → Json
  | num : Int → Json
  | str : String → Json
  | arr : List Json → Json
  | obj : List (String × Json) → Json

/-- Python truthiness of a JSON value: None, False, 0, empty string, empty
array and empty object are falsy, as in the if order_id test of the webhook. -/
def Json.truthy : Json → Bool
  | .null => false
  | .bool b => b
  | .num n => !(n == 0)
  | .str s => !(s == "")
  | .arr xs => !xs.isEmpty
  | .obj fs => !fs.isEmpty

/-- Look up a key in a JSON object field list (Python dicts have unique keys;
the first occurrence is taken). -/
def lookupField : List (String × Json) → String → Option Json
  | [], _ => none
  | (k, v) :: fs, key => if k == key then some v else lookupField fs key

/-- The unhandled Python exception the webhook handler can raise when a
value in the payload chain is not a dict (calling .get on it fails). -/
inductive PyExc where
  | attributeError : PyExc
deriving DecidableEq

/-- Python dict.get(key, default): succeeds on an object (returning the
stored value, or the default when the key is absent) and raises
AttributeError on any non-dict value, exactly as payload.get does. -/
def pyGetD (j : Json) (k : String) (dflt : Json) : Except PyExc Json :=
  match j with
  | .obj fs => .ok ((lookupField fs k).getD dflt)
  | _ => .error .attributeError

/-- MongoDB scalar equality used by the update_one filters of main.py:
the stored razorpay_order_id field (a scalar: string or null) is compared
to the scalar query value. -/
def mongoEq : Json → Json → Bool
  | .null, .null => true
  | .bool x, .bool y => x == y
  | .num x, .num y => x == y
  | .str x, .str y => x == y
  | _, _ => false

/-- A cart line item as embedded in an order (CartItem of main.py). -/
structure CartItem where
  user_id : String
  product_id : String
  quantity : Nat

/-- One document of the orders collection, with the exact field layout
create_payment_order persists (razorpay_payment_id is absent until
verify_payment writes it; payment_status and razorpay_order_id are Json
because the code can store unvalidated gateway-supplied values there). -/
structure Order where
  user_id : String
  items : List CartItem
  total_price : ℚ
  payment_status : Json
  shipping_status : String
  razorpay_order_id : Json
  razorpay_payment_id : Option String

/-- Request body of POST /api/payment/create-order (OrderCreate of main.py). -/
structure OrderCreate where
  user_id : String
  items : List CartItem
  total_price : ℚ

/-- Request body of POST /api/payment/verify (VerifyPayload of main.py). -/
structure VerifyPayload where
  razorpay_order_id : String
  razorpay_payment_id : String
  razorpay_signature : String

/-- A FastAPI HTTPException as raised by the payment endpoints. -/
structure HTTPErr where
  status_code : Nat
  detail : String
deriving DecidableEq

/-- The 200-response of verify_payment (ok true). -/
structure OkResp where
  ok : Bool
deriving DecidableEq

/-- The 200-response of the webhook handler (received true). -/
structure ReceivedResp where
  received : Bool
deriving DecidableEq

/-- The response of the Razorpay order-creation call as seen by main.py:
the final HTTP status code, the raw body text, and the parsed JSON body
(an object, as the Razorpay orders API returns). The HTTP client delivers
only final responses, so status_code is at least 200 in any real call. -/
structure GatewayResponse where
  status_code : Nat
  text : String
  data : List (String × Json)

/-- The response of create_payment_order: the gateway (or mock) order object
and the publishable key id. -/
structure CreateOrderResp where
  order : List (String × Json)
  key_id : String

/-
State helpers: the orders collection is a list of documents;
update_one mutates the first document matching the filter.
-/

/-- Update the first element satisfying p, as Mongo update_one does. -/
def updateFirst (p : Order → Bool) (f : Order → Order) : List Order → List Order
  | [] => []
  | o :: rest => if p o then f o :: rest else o :: updateFirst p f rest

/-- Index of the first element satisfying p (length when there is none). -/
def firstIdx (p : Order → Bool) : List Order → Nat
  | [] => 0
  | o :: rest => if p o then 0 else firstIdx p rest + 1

/-- The update_one filter on razorpay_order_id with a string query value. -/
def matchRid (rid : String) (o : Order) : Bool := mongoEq o.razorpay_order_id (Json.str rid)

/-
The three operations of the payment core, translated from main.py.
os.getenv results are Option String parameters; Python truthiness of a
possibly-missing string is strTruthy.
-/

/-- Python truthiness of an optional string (os.getenv result): None and
the empty string are falsy. -/
def strTruthy : Option String → Bool
  | none => false
  | some s => !(s == "")

/-- The secret used by verify_payment: key_secret or the string mock_secret,
via Python or (None and the empty string both fall back). -/
def secretOf : Option String → String
  | none => "mock_secret"
  | some s => if s == "" then "mock_secret" else s

/-- Python round on an exact rational: round half to even (bankers rounding),
as the built-in round does. -/
def pyRound (q : ℚ) : ℤ :=
  let n : ℤ := ⌊q⌋
  let r : ℚ := q - n
  if r < 1/2 then n
  else if 1/2 < r then n + 1
  else if n % 2 = 0 then n else n + 1

/-- Line 226 of main.py: amount_paise = int(round(order.total_price * 100)),
the amount in minor units sent to the gateway and returned in the mock order. -/
def amount_paise (total_price : ℚ) : ℤ := pyRound (total_price * 100)

/-- A fresh order document exactly as both branches of create_payment_order
persist it via create_document. -/
def newOrderDoc (order : OrderCreate) (rid : Json) : Order :=
  { user_id := order.user_id
    items := order.items
    total_price := order.total_price
    payment_status := Json.str "pending"
    shipping_status := "pending"
    razorpay_order_id := rid
    razorpay_payment_id := none }

/-- create_payment_order of main.py. Parameters: the two environment
variables RAZORPAY_KEY_ID and RAZORPAY_KEY_SECRET, the response the remote
gateway would give to the requests.post call, the hex of the fresh ObjectId
used to synthesize the mock order id, the request body, and the orders
collection. Returns the new collection plus the HTTP result.
The gateway is consulted only when both keys are truthy; a response status
of at least 300 raises HTTPException(status, body) with nothing persisted;
otherwise (and always in mock mode) create_document appends exactly one
order document. create_document comes from database.py, which is not in
src/; it is modelled from the spec: the Document Store Accessor creates
one document per call in the named collection. -/
def createPaymentOrder (key_id key_secret : Option String) (gw : GatewayResponse)
    (mockOid : String) (order : OrderCreate) (dbOrders : List Order) :
    List Order × Except HTTPErr CreateOrderResp :=
  let amount := amount_paise order.total_price
  if strTruthy key_id && strTruthy key_secret then
    if 300 ≤ gw.status_code then
      (dbOrders, .error ⟨gw.status_code, gw.text⟩)
    else
      (dbOrders ++ [newOrderDoc order ((lookupField gw.data "id").getD Json.null)],
       .ok { order := gw.data, key_id := (key_id.getD "") })
  else
    let mock_id := "order_" ++ mockOid
    (dbOrders ++ [newOrderDoc order (Json.str mock_id)],
     .ok { order := [("id", Json.str mock_id), ("amount", Json.num amount), ("currency", Json.str "INR")],
           key_id := "rzp_test_mock" })

/-- verify_payment of main.py. Recomputes the HMAC-SHA256 hex signature of
order_id|payment_id keyed by the configured secret (or mock_secret), treats
any signature as valid when no secret is configured, writes payment_status
(paid or failed) and razorpay_payment_id into the first order matching
razorpay_order_id, then raises 400 Invalid signature on mismatch. -/
def verifyPayment (key_secret : Option String) (body : VerifyPayload) (dbOrders : List Order) :
    List Order × Except HTTPErr OkResp :=
  let generated := hmacSha256Hex (secretOf key_secret)
    (body.razorpay_order_id ++ "|" ++ body.razorpay_payment_id)
  let is_valid := if strTruthy key_secret then generated == body.razorpay_signature else true
  let status := if is_valid then "paid" else "failed"
  let db2 := updateFirst (matchRid body.razorpay_order_id)
    (fun o => { o with payment_status := Json.str status,
                       razorpay_payment_id := some body.razorpay_payment_id }) dbOrders
  if is_valid then (db2, .ok ⟨true⟩) else (db2, .error ⟨400, "Invalid signature"⟩)

/-- The database update of the webhook handler: when order_id is truthy,
update_one sets payment_status of the first matching order to the reported
status, or the string processing when the status value is falsy. -/
def webhookUpdate (orderId status : Json) (dbOrders : List Order) : List Order :=
  if orderId.truthy then
    updateFirst (fun o => mongoEq o.razorpay_order_id orderId)
      (fun o => { o with payment_status := if status.truthy then status else Json.str "processing" })
      dbOrders
  else dbOrders

/-- payment_webhook of main.py, over an arbitrary JSON body (FastAPI binds
the body to a dict, so the top level is an object). The handler evaluates
payload.get with object defaults down to the payment entity and then reads
order_id and status from it; calling .get on a non-dict value raises an
unhandled AttributeError, which surfaces as a server error instead of the
received acknowledgement. -/
def paymentWebhook (payload : List (String × Json)) (dbOrders : List Order) :
    List Order × Except PyExc ReceivedResp :=
  let _event := (lookupField payload "event").getD Json.null
  match pyGetD (Json.obj payload) "payload" (Json.obj []) with
  | .error e => (dbOrders, .error e)
  | .ok pl =>
    match pyGetD pl "payment" (Json.obj []) with
    | .error e => (dbOrders, .error e)
    | .ok pay =>
      match pyGetD pay "entity" (Json.obj []) with
      | .error e => (dbOrders, .error e)
      | .ok entity =>
        match pyGetD entity "order_id" Json.null, pyGetD entity "status" Json.null with
        | .ok orderId, .ok status => (webhookUpdate orderId status dbOrders, .ok ⟨true⟩)
        | .error e, _ => (dbOrders, .error e)
        | _, .error e => (dbOrders, .error e)

/-- The validity bit verify_payment computes: with a truthy secret, the
recomputed hex signature must equal the submitted one; otherwise any
signature is treated as valid. -/
def verifyValid (ks : Option String) (body : VerifyPayload) : Bool :=
  if strTruthy ks then
    hmacSha256Hex (secretOf ks) (body.razorpay_order_id ++ "|" ++ body.razorpay_payment_id)
      == body.razorpay_signature
  else true

/-- A sample persisted order document, used by the concrete witnesses and
counterexamples below: a pending order created for gateway order id order_A. -/
def sampleOrder : Order :=
  { user_id := "u1"
    items := [⟨"u1", "prod_1", 2⟩]
    total_price := 499
    payment_status := Json.str "pending"
    shipping_status := "pending"
    razorpay_order_id := Json.str "order_A"
    razorpay_payment_id := none }

/-- The shape condition under which the webhook .get chain cannot raise:
the payload value, the payment value below it and the entity value below
that are each either absent or JSON objects. -/
def wellShapedPayload (payload : List (String × Json)) : Bool :=
  match (lookupField payload "payload").getD (Json.obj []) with
  | Json.obj pf =>
    match (lookupField pf "payment").getD (Json.obj []) with
    | Json.obj pay =>
      match (lookupField pay "entity").getD (Json.obj []) with
      | Json.obj _ => true
      | _ => false
    | _ => false
  | _ => false

/-- sampleOrder as the mock-mode verify call leaves it: marked paid with
the submitted payment id recorded. -/
def samplePaid : Order :=
  { sampleOrder with payment_status := Json.str "paid", razorpay_payment_id := some "pay_1" }

/-- A well-formed gateway webhook body: an event name together with a
nested payment entity, the shape a real gateway delivers. -/
def entityPayload (ev : Json) (ent : List (String × Json)) : List (String × Json) :=
  [("event", ev), ("payload", Json.obj [("payment", Json.obj [("entity", Json.obj ent)])])]

/-- The order_id the webhook reads from the payment entity. -/
def entOrderId (ent : List (String × Json)) : Json := (lookupField ent "order_id").getD Json.null

/-- The status the webhook reads from the payment entity. -/
def entStatus (ent : List (String × Json)) : Json := (lookupField ent "status").getD Json.null

/-- The entity of a payment.captured event for order_A, as Razorpay sends
it: the status string is captured, which is outside the payment_status
enum of the data model. -/
def capturedEnt : List (String × Json) :=
  [("order_id", Json.str "order_A"), ("status", Json.str "captured")]

/-- A full payment.captured webhook body for order_A. -/
def capturedPayload : List (String × Json) :=
  entityPayload (Json.str "payment.captured") capturedEnt

/-- A webhook body whose entity carries order_id order_A and an empty
status string (a supplied but falsy status). -/
def emptyStatusPayload : List (String × Json) :=
  entityPayload (Json.str "payment.updated")
    [("order_id", Json.str "order_A"), ("status", Json.str "")]

/-- A webhook body whose payload key holds a number: the .get chain of the
handler then calls .get on a non-dict and raises AttributeError. -/
def badShapePayload : List (String × Json) := [("payload", Json.num 42)]

/-
Generic lemmas about the update_one model: updating the first match
preserves length, rewrites exactly the first matching index, and leaves
every other index unchanged.
-/

/-- updateFirst preserves the collection length. -/
theorem updateFirst_length (p : Order → Bool) (f : Order → Order) (l : List Order) :
    (updateFirst p f l).length = l.length := by
  induction l with
  | nil => rfl
  | cons a rest ih =>
    cases hp : p a <;> simp [updateFirst, hp, ih]

/-- When some element matches, the first matching index is within bounds. -/
theorem firstIdx_lt_length (p : Order → Bool) (l : List Order)
    (h : ∃ x ∈ l, p x = true) : firstIdx p l < l.length := by
  induction l with
  | nil => simp at h
  | cons a rest ih =>
    cases hp : p a with
    | true => simp [firstIdx, hp]
    | false =>
      have h' : ∃ x ∈ rest, p x = true := by
        rcases h with ⟨x, hx, hpx⟩
        rcases List.mem_cons.mp hx with rfl | hx'
        · rw [hp] at hpx; exact absurd hpx (by simp)
        · exact ⟨x, hx', hpx⟩
      have h2 := ih h'
      have h3 : firstIdx p (a :: rest) = firstIdx p rest + 1 := by simp [firstIdx, hp]
      rw [h3, List.length_cons]
      omega

/-- The element at the first matching index exists and satisfies the filter. -/
theorem getElem_firstIdx (p : Order → Bool) (l : List Order)
    (h : ∃ x ∈ l, p x = true) :
    ∃ x, l[firstIdx p l]? = some x ∧ p x = true := by
  induction l with
  | nil => simp at h
  | cons a rest ih =>
    cases hp : p a with
    | true => exact ⟨a, by simp [firstIdx, hp], hp⟩
    | false =>
      have h' : ∃ x ∈ rest, p x = true := by
        rcases h with ⟨x, hx, hpx⟩
        rcases List.mem_cons.mp hx with rfl | hx'
        · rw [hp] at hpx; exact absurd hpx (by simp)
        · exact ⟨x, hx', hpx⟩
      rcases ih h' with ⟨x, hx, hpx⟩
      exact ⟨x, by simpa [firstIdx, hp] using hx, hpx⟩

/-- At the first matching index, updateFirst applies the update. -/
theorem updateFirst_getElem_eq (p : Order → Bool) (f : Order → Order) (l : List Order)
    (h : ∃ x ∈ l, p x = true) :
    (updateFirst p f l)[firstIdx p l]? = (l[firstIdx p l]?).map f := by
  induction l with
  | nil => simp at h
  | cons a rest ih =>
    cases hp : p a with
    | true => simp [updateFirst, firstIdx, hp]
    | false =>
      have h' : ∃ x ∈ rest, p x = true := by
        rcases h with ⟨x, hx, hpx⟩
        rcases List.mem_cons.mp hx with rfl | hx'
        · rw [hp] at hpx; exact absurd hpx (by simp)
        · exact ⟨x, hx', hpx⟩
      simpa [updateFirst, firstIdx, hp] using ih h'

/-- Away from the first matching index, updateFirst changes nothing. -/
theorem updateFirst_getElem_ne (p : Order → Bool) (f : Order → Order) (l : List Order)
    (j : Nat) (hj : j ≠ firstIdx p l) :
    (updateFirst p f l)[j]? = l[j]? := by
  induction l generalizing j with
  | nil => rfl
  | cons a rest ih =>
    cases hp : p a with
    | true =>
      cases j with
      | zero => simp [firstIdx, hp] at hj
      | succ j => simp [updateFirst, hp]
    | false =>
      cases j with
      | zero => simp [updateFirst, hp]
      | succ j =>
        have hj' : j ≠ firstIdx p rest := by
          intro h; apply hj; simp [firstIdx, hp, h]
        simp [updateFirst, hp, ih j hj']

/-- Every element of an updated collection is an old element or the image
of an old element under the update. -/
theorem mem_updateFirst (p : Order → Bool) (f : Order → Order) (l : List Order)
    (x : Order) (h : x ∈ updateFirst p f l) : x ∈ l ∨ ∃ y ∈ l, x = f y := by
  induction l with
  | nil => simp [updateFirst] at h
  | cons a rest ih =>
    cases hp : p a with
    | true =>
      rw [updateFirst, if_pos hp] at h
      rcases List.mem_cons.mp h with rfl | hx
      · exact Or.inr ⟨a, by simp, rfl⟩
      · exact Or.inl (List.mem_cons_of_mem _ hx)
    | false =>
      rw [updateFirst, if_neg (by simp [hp])] at h
      rcases List.mem_cons.mp h with rfl | hx
      · exact Or.inl (by simp)
      · rcases ih hx with h1 | ⟨y, hy, rfl⟩
        · exact Or.inl (List.mem_cons_of_mem _ h1)
        · exact Or.inr ⟨y, List.mem_cons_of_mem _ hy, rfl⟩

/-- The Mongo filter on razorpay_order_id with a string query matches
exactly the orders whose stored id is that string. -/
theorem matchRid_eq_true (rid : String) (o : Order) :
    matchRid rid o = true ↔ o.razorpay_order_id = Json.str rid := by
  cases h : o.razorpay_order_id <;> simp [matchRid, mongoEq, h]


/-- Characterization of verify_payment: on both branches the first order
matching razorpay_order_id receives the status determined by the validity
bit together with the submitted payment id, and the HTTP result is ok true
on match and the 400 Invalid signature error on mismatch. -/
theorem verifyPayment_eq (ks : Option String) (body : VerifyPayload) (db : List Order) :
    verifyPayment ks body db =
      (updateFirst (matchRid body.razorpay_order_id)
        (fun o => { o with
          payment_status := Json.str (if verifyValid ks body then "paid" else "failed"),
          razorpay_payment_id := some body.razorpay_payment_id }) db,
       if verifyValid ks body then Except.ok ⟨true⟩ else Except.error ⟨400, "Invalid signature"⟩) := by
  cases hks : strTruthy ks with
  | false => simp [verifyPayment, verifyValid, hks]
  | true =>
    cases h2 : hmacSha256Hex (secretOf ks)
        (body.razorpay_order_id ++ "|" ++ body.razorpay_payment_id) == body.razorpay_signature with
    | true => simp [verifyPayment, verifyValid, hks, h2]
    | false => simp [verifyPayment, verifyValid, hks, h2]

/-- Claim C1: for every order id O, payment id P and configured secret S,
calling verify_payment with the signature hex(HMAC-SHA256(S, O|P)) returns
ok true, and the first stored order whose razorpay_order_id is O gets
payment_status paid (the submitted payment id is recorded with it) while
every other document is untouched. -/
theorem claim1_verify_matching_signature_sets_paid
    (S O P sig : String) (db : List Order)
    (hsig : sig = hmacSha256Hex S (O ++ "|" ++ P))
    (hmatch : ∃ o ∈ db, o.razorpay_order_id = Json.str O) :
    (verifyPayment (some S) ⟨O, P, sig⟩ db).2 = Except.ok ⟨true⟩ ∧
    ∃ o, db[firstIdx (matchRid O) db]? = some o ∧ o.razorpay_order_id = Json.str O ∧
      (verifyPayment (some S) ⟨O, P, sig⟩ db).1[firstIdx (matchRid O) db]? =
        some { o with payment_status := Json.str "paid", razorpay_payment_id := some P } ∧
      ∀ j : Nat, j ≠ firstIdx (matchRid O) db →
        (verifyPayment (some S) ⟨O, P, sig⟩ db).1[j]? = db[j]? := by
  have hm' : ∃ o ∈ db, matchRid O o = true := by
    rcases hmatch with ⟨o, ho, h⟩
    exact ⟨o, ho, (matchRid_eq_true O o).mpr h⟩
  have hv : verifyValid (some S) ⟨O, P, sig⟩ = true := by
    cases hS : S == "" with
    | true => simp [verifyValid, strTruthy, hS]
    | false => simp [verifyValid, strTruthy, secretOf, hS, hsig]
  rw [verifyPayment_eq]
  simp only [hv, if_true]
  refine ⟨trivial, ?_⟩
  rcases getElem_firstIdx (matchRid O) db hm' with ⟨o, ho, hpo⟩
  refine ⟨o, ho, (matchRid_eq_true O o).mp hpo, ?_, ?_⟩
  · rw [updateFirst_getElem_eq (matchRid O) _ db hm', ho]
    rfl
  · intro j hj
    exact updateFirst_getElem_ne (matchRid O) _ db j hj

/-- Witness for C1 at a concrete secret, order, payment id and database. -/
theorem claim1_witness :
    (verifyPayment (some "s3cret")
        ⟨"order_A", "pay_9", hmacSha256Hex "s3cret" ("order_A" ++ "|" ++ "pay_9")⟩
        [sampleOrder]).2 = Except.ok ⟨true⟩ ∧
    ∃ o, [sampleOrder][firstIdx (matchRid "order_A") [sampleOrder]]? = some o ∧
      o.razorpay_order_id = Json.str "order_A" ∧
      (verifyPayment (some "s3cret")
        ⟨"order_A", "pay_9", hmacSha256Hex "s3cret" ("order_A" ++ "|" ++ "pay_9")⟩
        [sampleOrder]).1[firstIdx (matchRid "order_A") [sampleOrder]]? =
        some { o with payment_status := Json.str "paid", razorpay_payment_id := some "pay_9" } ∧
      ∀ j : Nat, j ≠ firstIdx (matchRid "order_A") [sampleOrder] →
        (verifyPayment (some "s3cret")
          ⟨"order_A", "pay_9", hmacSha256Hex "s3cret" ("order_A" ++ "|" ++ "pay_9")⟩
          [sampleOrder]).1[j]? = [sampleOrder][j]? := by
  have h := claim1_verify_matching_signature_sets_paid "s3cret" "order_A" "pay_9"
    (hmacSha256Hex "s3cret" ("order_A" ++ "|" ++ "pay_9")) [sampleOrder] rfl
    ⟨sampleOrder, by simp, rfl⟩
  exact h

/-- The collection component of verify_payment. -/
theorem verifyPayment_fst (ks : Option String) (body : VerifyPayload) (db : List Order) :
    (verifyPayment ks body db).1 =
      updateFirst (matchRid body.razorpay_order_id)
        (fun o => { o with
          payment_status := Json.str (if verifyValid ks body then "paid" else "failed"),
          razorpay_payment_id := some body.razorpay_payment_id }) db := by
  rw [verifyPayment_eq]

/-- The HTTP result component of verify_payment. -/
theorem verifyPayment_snd (ks : Option String) (body : VerifyPayload) (db : List Order) :
    (verifyPayment ks body db).2 =
      if verifyValid ks body then Except.ok ⟨true⟩ else Except.error ⟨400, "Invalid signature"⟩ := by
  rw [verifyPayment_eq]

/-- Claim C2: with a configured (truthy) secret, verify_payment raises the
400 Invalid signature error exactly when the submitted signature differs
from the recomputed HMAC-SHA256 hex signature, and on a mismatch the first
matching order is written with payment_status failed (and the submitted
payment id) in the state the call leaves behind, other documents untouched. -/
theorem claim2_verify_mismatch_marks_failed_and_raises
    (S O P sig : String) (db : List Order) (hS : S ≠ "")
    (hmatch : ∃ o ∈ db, o.razorpay_order_id = Json.str O) :
    ((verifyPayment (some S) ⟨O, P, sig⟩ db).2 = Except.error ⟨400, "Invalid signature"⟩ ↔
      sig ≠ hmacSha256Hex S (O ++ "|" ++ P)) ∧
    (sig ≠ hmacSha256Hex S (O ++ "|" ++ P) →
      ∃ o, db[firstIdx (matchRid O) db]? = some o ∧
        (verifyPayment (some S) ⟨O, P, sig⟩ db).1[firstIdx (matchRid O) db]? =
          some { o with payment_status := Json.str "failed", razorpay_payment_id := some P } ∧
        ∀ j : Nat, j ≠ firstIdx (matchRid O) db →
          (verifyPayment (some S) ⟨O, P, sig⟩ db).1[j]? = db[j]?) := by
  have hm' : ∃ o ∈ db, matchRid O o = true := by
    rcases hmatch with ⟨o, ho, h⟩
    exact ⟨o, ho, (matchRid_eq_true O o).mpr h⟩
  have h1 : (S == "") = false := by simp [hS]
  have hvv : verifyValid (some S) ⟨O, P, sig⟩ = (hmacSha256Hex S (O ++ "|" ++ P) == sig) := by
    simp [verifyValid, strTruthy, secretOf, h1]
  constructor
  · rw [verifyPayment_snd, hvv]
    cases heq : hmacSha256Hex S (O ++ "|" ++ P) == sig with
    | true =>
      have hsig : sig = hmacSha256Hex S (O ++ "|" ++ P) := (beq_iff_eq.mp heq).symm
      simp [hsig]
    | false =>
      have hsig : sig ≠ hmacSha256Hex S (O ++ "|" ++ P) := by
        intro h
        rw [h] at heq
        simp at heq
      simp [hsig]
  · intro hne
    have hb : verifyValid (some S) ⟨O, P, sig⟩ = false := by
      rw [hvv]
      exact beq_eq_false_iff_ne.mpr fun h => hne h.symm
    rcases getElem_firstIdx (matchRid O) db hm' with ⟨o, ho, hpo⟩
    refine ⟨o, ho, ?_, ?_⟩
    · rw [verifyPayment_fst]
      simp only [hb, Bool.false_eq_true, if_false]
      rw [updateFirst_getElem_eq (matchRid O) _ db hm', ho]
      rfl
    · intro j hj
      rw [verifyPayment_fst]
      exact updateFirst_getElem_ne (matchRid O) _ db j hj

/-- Witness for C2 at a concrete secret, order and mismatching signature. -/
theorem claim2_witness :
    ((verifyPayment (some "whsec_1") ⟨"order_A", "pay_9", "deadbeef"⟩ [sampleOrder]).2 =
        Except.error ⟨400, "Invalid signature"⟩ ↔
      "deadbeef" ≠ hmacSha256Hex "whsec_1" ("order_A" ++ "|" ++ "pay_9")) ∧
    ("deadbeef" ≠ hmacSha256Hex "whsec_1" ("order_A" ++ "|" ++ "pay_9") →
      ∃ o, [sampleOrder][firstIdx (matchRid "order_A") [sampleOrder]]? = some o ∧
        (verifyPayment (some "whsec_1") ⟨"order_A", "pay_9", "deadbeef"⟩
            [sampleOrder]).1[firstIdx (matchRid "order_A") [sampleOrder]]? =
          some { o with payment_status := Json.str "failed", razorpay_payment_id := some "pay_9" } ∧
        ∀ j : Nat, j ≠ firstIdx (matchRid "order_A") [sampleOrder] →
          (verifyPayment (some "whsec_1") ⟨"order_A", "pay_9", "deadbeef"⟩
            [sampleOrder]).1[j]? = [sampleOrder][j]?) :=
  claim2_verify_mismatch_marks_failed_and_raises "whsec_1" "order_A" "pay_9" "deadbeef"
    [sampleOrder] (by decide) ⟨sampleOrder, by simp, rfl⟩

/-- Claim C6: with no secret configured, verify_payment treats every
submitted signature as valid: it returns ok true and sets the first
matching order to payment_status paid, for arbitrary signature values. -/
theorem claim6_no_secret_accepts_any_signature
    (O P sig : String) (db : List Order)
    (hmatch : ∃ o ∈ db, o.razorpay_order_id = Json.str O) :
    (verifyPayment none ⟨O, P, sig⟩ db).2 = Except.ok ⟨true⟩ ∧
    ∃ o, db[firstIdx (matchRid O) db]? = some o ∧
      (verifyPayment none ⟨O, P, sig⟩ db).1[firstIdx (matchRid O) db]? =
        some { o with payment_status := Json.str "paid", razorpay_payment_id := some P } := by
  have hm' : ∃ o ∈ db, matchRid O o = true := by
    rcases hmatch with ⟨o, ho, h⟩
    exact ⟨o, ho, (matchRid_eq_true O o).mpr h⟩
  have hv : verifyValid none ⟨O, P, sig⟩ = true := rfl
  constructor
  · rw [verifyPayment_snd]
    simp [hv]
  · rcases getElem_firstIdx (matchRid O) db hm' with ⟨o, ho, hpo⟩
    refine ⟨o, ho, ?_⟩
    rw [verifyPayment_fst]
    simp only [hv, if_true]
    rw [updateFirst_getElem_eq (matchRid O) _ db hm', ho]
    rfl

/-- Witness for C6 at a concrete garbage signature. -/
theorem claim6_witness :
    (verifyPayment none ⟨"order_A", "pay_1", "anything-at-all"⟩ [sampleOrder]).2 =
      Except.ok ⟨true⟩ ∧
    ∃ o, [sampleOrder][firstIdx (matchRid "order_A") [sampleOrder]]? = some o ∧
      (verifyPayment none ⟨"order_A", "pay_1", "anything-at-all"⟩
          [sampleOrder]).1[firstIdx (matchRid "order_A") [sampleOrder]]? =
        some { o with payment_status := Json.str "paid", razorpay_payment_id := some "pay_1" } :=
  claim6_no_secret_accepts_any_signature "order_A" "pay_1" "anything-at-all" [sampleOrder]
    ⟨sampleOrder, by simp, rfl⟩

/-- Claim C10: every verify_payment call that matches a stored order writes
the submitted razorpay_payment_id into that order on both branches; when
the call does not return ok (the signature check failed), the same write
also carries payment_status failed. -/
theorem claim10_payment_id_recorded_on_both_branches
    (ks : Option String) (O P sig : String) (db : List Order)
    (hmatch : ∃ o ∈ db, o.razorpay_order_id = Json.str O) :
    ∃ o st, db[firstIdx (matchRid O) db]? = some o ∧
      (verifyPayment ks ⟨O, P, sig⟩ db).1[firstIdx (matchRid O) db]? =
        some { o with payment_status := Json.str st, razorpay_payment_id := some P } ∧
      ((verifyPayment ks ⟨O, P, sig⟩ db).2 ≠ Except.ok ⟨true⟩ → st = "failed") := by
  have hm' : ∃ o ∈ db, matchRid O o = true := by
    rcases hmatch with ⟨o, ho, h⟩
    exact ⟨o, ho, (matchRid_eq_true O o).mpr h⟩
  rcases getElem_firstIdx (matchRid O) db hm' with ⟨o, ho, hpo⟩
  cases hv : verifyValid ks ⟨O, P, sig⟩ with
  | true =>
    refine ⟨o, "paid", ho, ?_, ?_⟩
    · rw [verifyPayment_fst]
      simp only [hv, if_true]
      rw [updateFirst_getElem_eq (matchRid O) _ db hm', ho]
      rfl
    · intro hne
      exfalso
      apply hne
      rw [verifyPayment_snd]
      simp [hv]
  | false =>
    refine ⟨o, "failed", ho, ?_, fun _ => rfl⟩
    rw [verifyPayment_fst]
    simp only [hv, Bool.false_eq_true, if_false]
    rw [updateFirst_getElem_eq (matchRid O) _ db hm', ho]
    rfl

/-- Witness for C10, exercising the mock-mode branch at a concrete call. -/
theorem claim10_witness :
    ∃ o st, [sampleOrder][firstIdx (matchRid "order_A") [sampleOrder]]? = some o ∧
      (verifyPayment none ⟨"order_A", "pay_7", "sig"⟩
          [sampleOrder]).1[firstIdx (matchRid "order_A") [sampleOrder]]? =
        some { o with payment_status := Json.str st, razorpay_payment_id := some "pay_7" } ∧
      ((verifyPayment none ⟨"order_A", "pay_7", "sig"⟩ [sampleOrder]).2 ≠ Except.ok ⟨true⟩ →
        st = "failed") :=
  claim10_payment_id_recorded_on_both_branches none "order_A" "pay_7" "sig" [sampleOrder]
    ⟨sampleOrder, by simp, rfl⟩

/-- Claim C3: when both gateway keys are configured and the gateway
answers the order-creation call with a non-2xx final status, nothing is
persisted (the orders collection is unchanged) and the call fails with an
HTTPException carrying the upstream status code and response body. The
hypothesis hlow records that an HTTP client only delivers final responses,
whose status is at least 200, so non-2xx means at least 300 here. -/
theorem claim3_gateway_failure_creates_nothing
    (ki ks : String) (hki : ki ≠ "") (hks : ks ≠ "")
    (gw : GatewayResponse) (mo : String) (oc : OrderCreate) (db : List Order)
    (hlow : 200 ≤ gw.status_code)
    (hfail : ¬ (200 ≤ gw.status_code ∧ gw.status_code < 300)) :
    createPaymentOrder (some ki) (some ks) gw mo oc db =
      (db, Except.error ⟨gw.status_code, gw.text⟩) := by
  have h300 : 300 ≤ gw.status_code := by omega
  have hki' : (ki == "") = false := by simp [hki]
  have hks' : (ks == "") = false := by simp [hks]
  simp [createPaymentOrder, strTruthy, hki', hks', h300]

/-- Witness for C3 at a concrete 502 gateway response. -/
theorem claim3_witness :
    createPaymentOrder (some "rzp_live_k") (some "sk_1")
        ⟨502, "Bad Gateway", []⟩ "5f1e" ⟨"u1", [], 499⟩ [sampleOrder] =
      ([sampleOrder], Except.error ⟨502, "Bad Gateway"⟩) :=
  claim3_gateway_failure_creates_nothing "rzp_live_k" "sk_1" (by decide) (by decide)
    ⟨502, "Bad Gateway", []⟩ "5f1e" ⟨"u1", [], 499⟩ [sampleOrder] (by decide) (by decide)

/-- Claim C4: a successful create_order appends exactly one order document
with payment_status pending, shipping_status pending and razorpay_order_id
equal to the id the gateway returned; in mock mode (either key missing or
empty) exactly one document is appended with the locally synthesized id
order_ plus a fresh ObjectId, and the response key_id is the marker
rzp_test_mock. -/
theorem claim4_create_success_persists_one_pending_order
    (ki ks gid : String) (gw : GatewayResponse) (mo : String) (oc : OrderCreate)
    (db : List Order) :
    (ki ≠ "" → ks ≠ "" → gw.status_code < 300 →
      lookupField gw.data "id" = some (Json.str gid) →
      createPaymentOrder (some ki) (some ks) gw mo oc db =
        (db ++ [newOrderDoc oc (Json.str gid)], Except.ok ⟨gw.data, ki⟩)) ∧
    (∀ ki2 ks2 : Option String, (strTruthy ki2 && strTruthy ks2) = false →
      createPaymentOrder ki2 ks2 gw mo oc db =
        (db ++ [newOrderDoc oc (Json.str ("order_" ++ mo))],
         Except.ok ⟨[("id", Json.str ("order_" ++ mo)),
                     ("amount", Json.num (amount_paise oc.total_price)),
                     ("currency", Json.str "INR")], "rzp_test_mock"⟩)) := by
  constructor
  · intro hki hks hsc hid
    have h300 : ¬ 300 ≤ gw.status_code := by omega
    have hki' : (ki == "") = false := by simp [hki]
    have hks' : (ks == "") = false := by simp [hks]
    simp [createPaymentOrder, strTruthy, hki', hks', h300, hid]
  · intro ki2 ks2 hfalse
    simp [createPaymentOrder, hfalse]

/-- Witness for C4: one concrete configured call with a 200 gateway
response, and one concrete mock-mode call with no keys configured. -/
theorem claim4_witness :
    createPaymentOrder (some "rzp_live_k") (some "sk_1")
        ⟨200, "ok-body", [("id", Json.str "order_G")]⟩ "5f1e" ⟨"u1", [], 499⟩ [] =
      ([newOrderDoc ⟨"u1", [], 499⟩ (Json.str "order_G")],
       Except.ok ⟨[("id", Json.str "order_G")], "rzp_live_k"⟩) ∧
    createPaymentOrder none none
        ⟨200, "ok-body", [("id", Json.str "order_G")]⟩ "5f1e" ⟨"u1", [], 499⟩ [] =
      ([newOrderDoc ⟨"u1", [], 499⟩ (Json.str ("order_" ++ "5f1e"))],
       Except.ok ⟨[("id", Json.str ("order_" ++ "5f1e")),
                   ("amount", Json.num (amount_paise 499)),
                   ("currency", Json.str "INR")], "rzp_test_mock"⟩) := by
  have h := claim4_create_success_persists_one_pending_order "rzp_live_k" "sk_1" "order_G"
    ⟨200, "ok-body", [("id", Json.str "order_G")]⟩ "5f1e" ⟨"u1", [], 499⟩ []
  exact ⟨by simpa using h.1 (by decide) (by decide) (by decide) rfl,
         by simpa using h.2 none none rfl⟩

/-- pyRound of a nonnegative rational is nonnegative. -/
theorem pyRound_nonneg (q : ℚ) (hq : 0 ≤ q) : 0 ≤ pyRound q := by
  have hfl : (0:ℤ) ≤ ⌊q⌋ := Int.floor_nonneg.mpr hq
  simp only [pyRound]
  split_ifs <;> omega

/-- pyRound lands within one half of its argument: it is a nearest integer. -/
theorem pyRound_near (q : ℚ) : |(pyRound q : ℚ) - q| ≤ 1/2 := by
  have h1 : (⌊q⌋ : ℚ) ≤ q := Int.floor_le q
  have h2 : q < ⌊q⌋ + 1 := Int.lt_floor_add_one q
  simp only [pyRound]
  split_ifs with ha hb hc <;>
    · rw [abs_le]
      constructor <;> push_cast <;> linarith

/-- Claim C9: for every nonnegative total_price the amount in minor units,
int(round(total_price * 100)) of line 226, is a nonnegative integer lying
within one half of total_price * 100 (a nearest integer, i.e. the claimed
round of the scaled price). -/
theorem claim9_amount_minor_units
    (p : ℚ) (h : 0 ≤ p) :
    0 ≤ amount_paise p ∧ |(amount_paise p : ℚ) - p * 100| ≤ 1/2 :=
  ⟨pyRound_nonneg (p * 100) (by positivity), pyRound_near (p * 100)⟩

/-- Witness for C9 at total_price 149.99: the amount is exactly 14999. -/
theorem claim9_witness :
    (0 ≤ amount_paise (14999/100 : ℚ) ∧
      |(amount_paise (14999/100 : ℚ) : ℚ) - (14999/100) * 100| ≤ 1/2) ∧
    amount_paise (14999/100 : ℚ) = 14999 := by
  refine ⟨claim9_amount_minor_units (14999/100 : ℚ) (by norm_num), ?_⟩
  have h100 : (14999/100 : ℚ) * 100 = ((14999 : ℤ) : ℚ) := by norm_num
  have hfl : ⌊((14999 : ℤ) : ℚ)⌋ = 14999 := Int.floor_intCast 14999
  simp [amount_paise, pyRound, h100, hfl]

/-- Counterexample to claim C5: a payment.captured webhook for a pending
order writes payment_status captured — a transition outside the claimed
pending to paid or failed moves, and a value outside the enum of
pending, paid, failed, refunded. The webhook write is not validated. -/
theorem claim5_counterexample :
    (paymentWebhook capturedPayload [sampleOrder]).1 =
      [{ sampleOrder with payment_status := Json.str "captured" }] ∧
    Json.str "captured" ∉
      [Json.str "pending", Json.str "paid", Json.str "failed", Json.str "refunded"] := by
  refine ⟨rfl, ?_⟩
  simp

/-- Amended C5: verify_payment writes payment_status only to paid or
failed — after any verify_payment call every document is either an
original one or carries payment_status paid or failed. The webhook write,
by contrast, is unvalidated (see the counterexample), and neither
operation inspects the prior status, so no transition restriction out of
failed or refunded is enforced by this core. -/
theorem claim5_amended_verify_write_set
    (ks : Option String) (body : VerifyPayload) (db : List Order) (o : Order)
    (h : o ∈ (verifyPayment ks body db).1) :
    o ∈ db ∨ o.payment_status = Json.str "paid" ∨ o.payment_status = Json.str "failed" := by
  rw [verifyPayment_fst] at h
  rcases mem_updateFirst _ _ _ _ h with h1 | ⟨y, hy, rfl⟩
  · exact Or.inl h1
  · cases hv : verifyValid ks body with
    | true =>
      right; left
      simp [hv]
    | false =>
      right; right
      simp [hv]

/-- Witness for the amended C5 at a concrete mock-mode verify call. -/
theorem claim5_amended_witness :
    samplePaid ∈ [sampleOrder] ∨
    samplePaid.payment_status = Json.str "paid" ∨
    samplePaid.payment_status = Json.str "failed" :=
  claim5_amended_verify_write_set none ⟨"order_A", "pay_1", "x"⟩ [sampleOrder]
    samplePaid (List.mem_singleton.mpr rfl)

/-- Counterexample to claim C7: the entity supplies the status string, the
empty string, yet the handler writes processing instead of the supplied
string, because status or processing replaces every falsy status value. -/
theorem claim7_counterexample :
    (paymentWebhook emptyStatusPayload [sampleOrder]).1 =
      [{ sampleOrder with payment_status := Json.str "processing" }] ∧
    Json.str "processing" ≠ Json.str "" := by
  refine ⟨rfl, ?_⟩
  simp

/-- Amended C7: the webhook acknowledges with received true and performs a
write exactly when the entity order_id is truthy (a present but falsy
order_id, such as an empty string, is skipped). The written value is the
supplied status when that is truthy and the string processing otherwise —
including when a status is supplied but falsy — with no validation
against the payment_status enum. -/
theorem claim7_amended_webhook_write
    (ev : Json) (ent : List (String × Json)) (db : List Order) :
    (paymentWebhook (entityPayload ev ent) db).2 = Except.ok ⟨true⟩ ∧
    ((entOrderId ent).truthy = false → (paymentWebhook (entityPayload ev ent) db).1 = db) ∧
    ((entOrderId ent).truthy = true →
      (∃ o ∈ db, mongoEq o.razorpay_order_id (entOrderId ent) = true) →
      ∃ o, db[firstIdx (fun x => mongoEq x.razorpay_order_id (entOrderId ent)) db]? = some o ∧
        (paymentWebhook (entityPayload ev ent)
            db).1[firstIdx (fun x => mongoEq x.razorpay_order_id (entOrderId ent)) db]? =
          some { o with payment_status :=
            if (entStatus ent).truthy then entStatus ent else Json.str "processing" } ∧
        ∀ j : Nat, j ≠ firstIdx (fun x => mongoEq x.razorpay_order_id (entOrderId ent)) db →
          (paymentWebhook (entityPayload ev ent) db).1[j]? = db[j]?) := by
  have hw : paymentWebhook (entityPayload ev ent) db =
      (webhookUpdate (entOrderId ent) (entStatus ent) db, Except.ok ⟨true⟩) := rfl
  refine ⟨by rw [hw], ?_, ?_⟩
  · intro hf
    rw [hw]
    simp [webhookUpdate, hf]
  · intro ht hm
    rcases getElem_firstIdx _ db hm with ⟨o, ho, hpo⟩
    refine ⟨o, ho, ?_, ?_⟩
    · rw [hw]
      simp only [webhookUpdate, ht, if_true]
      rw [updateFirst_getElem_eq _ _ db hm, ho]
      rfl
    · intro j hj
      rw [hw]
      simp only [webhookUpdate, ht, if_true]
      exact updateFirst_getElem_ne _ _ db j hj

/-- Witness for the amended C7 at the concrete payment.captured event. -/
theorem claim7_amended_witness :
    (paymentWebhook (entityPayload (Json.str "payment.captured") capturedEnt)
        [sampleOrder]).2 = Except.ok ⟨true⟩ ∧
    ∃ o, [sampleOrder][firstIdx
          (fun x => mongoEq x.razorpay_order_id (entOrderId capturedEnt)) [sampleOrder]]? =
        some o ∧
      (paymentWebhook (entityPayload (Json.str "payment.captured") capturedEnt)
          [sampleOrder]).1[firstIdx
          (fun x => mongoEq x.razorpay_order_id (entOrderId capturedEnt)) [sampleOrder]]? =
        some { o with payment_status :=
          if (entStatus capturedEnt).truthy then entStatus capturedEnt
          else Json.str "processing" } ∧
      ∀ j : Nat, j ≠ firstIdx
          (fun x => mongoEq x.razorpay_order_id (entOrderId capturedEnt)) [sampleOrder] →
        (paymentWebhook (entityPayload (Json.str "payment.captured") capturedEnt)
          [sampleOrder]).1[j]? = [sampleOrder][j]? := by
  have h := claim7_amended_webhook_write (Json.str "payment.captured") capturedEnt [sampleOrder]
  exact ⟨h.1, h.2.2 rfl ⟨sampleOrder, by simp, rfl⟩⟩

/-- Counterexample to claim C8: a payload whose payload key holds the
number 42 makes the handler call .get on a non-dict, raising an unhandled
AttributeError instead of answering received true. -/
theorem claim8_counterexample :
    paymentWebhook badShapePayload [] = ([], Except.error PyExc.attributeError) ∧
    (paymentWebhook badShapePayload []).2 ≠ Except.ok ⟨true⟩ := by
  refine ⟨rfl, ?_⟩
  simp [badShapePayload, paymentWebhook, pyGetD, lookupField]

/-- Amended C8: the webhook answers received true for every payload whose
payload, payload.payment and payment.entity values are each absent or JSON
objects; on any other shape it raises an unhandled AttributeError (an
outward server error) while leaving the collection untouched. Every call
therefore either acknowledges or fails with the collection unchanged. -/
theorem claim8_amended_webhook_ack
    (payload : List (String × Json)) (db : List Order) :
    (wellShapedPayload payload = true → (paymentWebhook payload db).2 = Except.ok ⟨true⟩) ∧
    ((paymentWebhook payload db).2 = Except.ok ⟨true⟩ ∨
      ((paymentWebhook payload db).1 = db ∧
        (paymentWebhook payload db).2 = Except.error PyExc.attributeError)) := by
  rcases hpl : (lookupField payload "payload").getD (Json.obj []) with _ | b | n | s | xs | pf <;>
    simp [paymentWebhook, pyGetD, wellShapedPayload, hpl]
  rcases hpay : (lookupField pf "payment").getD (Json.obj []) with _ | b | n | s | xs | pay <;>
    simp [pyGetD, hpay]
  rcases hent : (lookupField pay "entity").getD (Json.obj []) with _ | b | n | s | xs | ent <;>
    simp [pyGetD, hent]

/-- Witness for the amended C8 at a concrete well-shaped payload carrying
only an event name. -/
theorem claim8_amended_witness :
    (paymentWebhook [("event", Json.str "ping")] []).2 = Except.ok ⟨true⟩ ∧
    ((paymentWebhook [("event", Json.str "ping")] []).2 = Except.ok ⟨true⟩ ∨
      ((paymentWebhook [("event", Json.str "ping")] []).1 = [] ∧
        (paymentWebhook [("event", Json.str "ping")] []).2 =
          Except.error PyExc.attributeError)) := by
  have h := claim8_amended_webhook_ack [("event", Json.str "ping")] []
  exact ⟨h.1 rfl, h.2⟩
